import Mathlib

/-!
Verification development for the process/thread and signal-delivery core of a
Linux-syscall-compatible kernel (`src/` of the repository).  Rust data
structures are shallowly embedded: `usize` becomes `Nat` with explicit 64-bit
masking where overflow matters, `i32`/`isize` become `Int` with explicit
wrapping, `BTreeMap` becomes an association list, fallible code returns
`Option`/`Except`, and functions that mutate state take and return the state
explicitly.
-/

namespace Starry

/-- All 64 bits set: the value of `usize::MAX` on the 64-bit target. -/
def U64MAX : Nat := 2 ^ 64 - 1

/-- Rust bitwise complement `!x` on `usize` (for `x < 2^64`). -/
def usizeNot (x : Nat) : Nat := U64MAX ^^^ x

/-- Two's-complement reinterpretation of a `usize` value as `isize`. -/
def toSigned64 (n : Nat) : Int :=
  if n % 2 ^ 64 < 2 ^ 63 then ((n % 2 ^ 64 : Nat) : Int)
  else ((n % 2 ^ 64 : Nat) : Int) - 2 ^ 64

/-- Truncating cast `u64 -> i32` (used by `child.pid as i32`). -/
def intCast32 (n : Nat) : Int :=
  if n % 2 ^ 32 < 2 ^ 31 then ((n % 2 ^ 32 : Nat) : Int)
  else ((n % 2 ^ 32 : Nat) : Int) - 2 ^ 32

/-- 32-bit wrapping of an `i32` arithmetic result (Rust `<<` discards
shifted-out bits). -/
def wrap32 (x : Int) : Int := (x + 2 ^ 31) % 2 ^ 32 - 2 ^ 31

/-- Cast `isize -> usize` (Rust `as usize`). -/
def usizeOfInt (i : Int) : Nat := (i % 2 ^ 64).toNat

/-- Least index `i < n` with `p i = true`, scanning upward; `none` if there is
none.  This is the semantic core shared by `usize::trailing_zeros` and the
bit-scan loop of `SignalSet::find_sig`. -/
def scanBit (p : Nat → Bool) : Nat → Option Nat
  | 0 => none
  | n + 1 =>
    match scanBit p n with
    | some i => some i
    | none => if p n then some n else none

/-- `usize::trailing_zeros` on the 64-bit target: the position of the lowest
set bit, or 64 when no bit below 64 is set. -/
def trailingZeros64 (x : Nat) : Nat := (scanBit x.testBit 64).getD 64

/-! ## Signal numbering

`src/signal/signal_no.rs` is not among the provided sources (only its users
are).  Modelled from the spec: the Signal Set is a `bitset[1..64]`
(`MAX_SIG_NUM = 64`) and the named signals carry their standard Linux (RISC-V)
numbers. -/

/-- Modelled from the spec: `MAX_SIG_NUM`, the 64-entry signal range of
`signal_no.rs` (missing from the sources). -/
def MAX_SIG_NUM : Nat := 64

/-- Modelled from the spec: standard Linux signal number of `SIGKILL`. -/
def SIGKILL : Nat := 9

/-- Modelled from the spec: standard Linux signal number of `SIGSTOP`. -/
def SIGSTOP : Nat := 19

/-- Modelled from the spec: standard Linux signal number of `SIGSEGV`. -/
def SIGSEGV : Nat := 11

/-- Modelled from the spec: standard Linux signal number of `SIGBUS`. -/
def SIGBUS : Nat := 7

/-! ## Auxiliary signal data (`src/signal/info.rs`, `src/signal/ucontext/`) -/

/-- `SigInfo` from `src/signal/info.rs` (the `pad` field is layout padding). -/
structure SigInfo where
  si_signo : Int
  si_errno : Int
  si_code : Int
  pad : Nat
  pid : Int
  uid : Nat
  si_val_int : Int
  si_val_ptr : Nat
deriving Repr, DecidableEq

/-- `SigInfo::default` from `src/signal/info.rs` (`si_code` is `SI_TKILL`). -/
def SigInfo.default : SigInfo :=
  ⟨0, 0, -6, 0, 0, 0, 0, 0⟩

/-- Modelled from the spec: the RISC-V `SignalUserContext`
(`src/signal/ucontext/riscv.rs` is missing from the sources) is "a
user-context record containing the pre-signal program counter and signal
mask"; `get_pc` reads the stored program counter. -/
structure SignalUserContext where
  pc : Nat
  mask : Nat
deriving Repr, DecidableEq

/-- Modelled from the spec: default (zeroed) user-context record. -/
def SignalUserContext.default : SignalUserContext := ⟨0, 0⟩

/-- Modelled from the spec: `SignalUserContext::init(pc, mask)` records the
pre-signal program counter and mask. -/
def SignalUserContext.init (pc mask : Nat) : SignalUserContext := ⟨pc, mask⟩

/-- Modelled from the spec: `get_pc` of the user-context record. -/
def SignalUserContext.get_pc (uc : SignalUserContext) : Nat := uc.pc

/-! ## Association lists standing in for `BTreeMap` -/

/-- `BTreeMap::get`: first binding of key `k`. -/
def lookupAL {α : Type} (l : List (Nat × α)) (k : Nat) : Option α :=
  (l.find? (fun p => p.1 == k)).map Prod.snd

/-- `BTreeMap::insert`: replace the binding of `k`, or append it. -/
def insertAL {α : Type} : List (Nat × α) → Nat → α → List (Nat × α)
  | [], k, v => [(k, v)]
  | (k', v') :: rest, k, v =>
    if k' = k then (k, v) :: rest else (k', v') :: insertAL rest k v

/-- `BTreeMap::remove`: drop the first binding of `k`. -/
def removeAL {α : Type} : List (Nat × α) → Nat → List (Nat × α)
  | [], _ => []
  | (k', v') :: rest, k =>
    if k' = k then rest else (k', v') :: removeAL rest k

/-- Number of bindings of key `k` (for exactly-once statements). -/
def countKey {α : Type} (l : List (Nat × α)) (k : Nat) : Nat :=
  (l.filter (fun p => p.1 == k)).length

/-! ## `SignalSet` (`src/signal/mod.rs`) -/

/-- `SignalSet`: the per-thread blocked mask (`mask`), pending set
(`pending`), and auxiliary-info map (`info`). -/
structure SignalSet where
  mask : Nat
  pending : Nat
  info : List (Nat × (SigInfo × SignalUserContext))
deriving Repr, DecidableEq

/-- `SignalSet::new`. -/
def SignalSet.new : SignalSet := ⟨0, 0, []⟩

/-- The bit-scan loop of `SignalSet::find_sig`: take the lowest set bit of
`pending`; stop at 64; clear the bit and return `pos + 1` if the bit is
unmasked or is the `SIGKILL`/`SIGSTOP` position, else continue.  The Rust
`loop` is embedded with fuel; 65 iterations always suffice because each pass
strictly increases the trailing-zero count (proved below). -/
def find_sig_loop (mask : Nat) : Nat → Nat → Option Nat
  | 0, _ => none
  | fuel + 1, pending =>
    let pos := trailingZeros64 pending
    if pos = MAX_SIG_NUM then none
    else
      let pending' := pending &&& usizeNot (1 <<< pos)
      if mask &&& (1 <<< pos) = 0 ∨ pos = SIGKILL - 1 ∨ pos = SIGSTOP - 1 then
        some (pos + 1)
      else
        find_sig_loop mask fuel pending'

/-- `SignalSet::find_sig`. -/
def SignalSet.find_sig (s : SignalSet) : Option Nat :=
  find_sig_loop s.mask (MAX_SIG_NUM + 1) s.pending

/-- `SignalSet::get_one_sig`: pop the found signal from `pending`. -/
def SignalSet.get_one_sig (s : SignalSet) : Option Nat × SignalSet :=
  match s.find_sig with
  | some sig =>
    (some sig, { s with pending := s.pending &&& usizeNot (1 <<< (sig - 1)) })
  | none => (none, s)

/-- `SignalSet::try_add_sig`: as written in the source it ORs the bit of
`sig_num` into `mask` (the blocked mask), not into `pending`, and stores the
auxiliary info (if any) under key `sig_num`. -/
def SignalSet.try_add_sig (s : SignalSet) (sig_num : Nat)
    (info : Option SigInfo) : SignalSet :=
  let now_mask := 1 <<< (sig_num - 1)
  let s' := { s with mask := s.mask ||| now_mask }
  match info with
  | some i =>
    { s' with info := insertAL s'.info sig_num (i, SignalUserContext.default) }
  | none => s'

/-- Eligibility of bit `pos` for selection by `find_sig`: pending, and
unblocked or the `SIGKILL`/`SIGSTOP` position. -/
def selectable (s : SignalSet) (pos : Nat) : Prop :=
  s.pending.testBit pos = true ∧
    (s.mask.testBit pos = false ∨ pos = SIGKILL - 1 ∨ pos = SIGSTOP - 1)

instance (s : SignalSet) (pos : Nat) : Decidable (selectable s pos) := by
  unfold selectable; infer_instance

/-- Boolean form of the loop's selection test, phrased exactly as the
source's condition on bit `i`. -/
def selB (mask pending : Nat) (i : Nat) : Bool :=
  pending.testBit i &&
    (decide (mask &&& (1 <<< i) = 0) || decide (i = SIGKILL - 1) ||
      decide (i = SIGSTOP - 1))

/-! ## Signal actions (`src/signal/action.rs`) -/

/-- Sentinel handler value for the default disposition. -/
def SIG_DFL : Nat := 0

/-- Sentinel handler value for ignoring the signal. -/
def SIG_IGN : Nat := 1

/-- `SigActionFlags::SA_SIGINFO`. -/
def SA_SIGINFO : Nat := 4

/-- `SigActionFlags::SA_ONSTACK`. -/
def SA_ONSTACK : Nat := 0x08000000

/-- `SigActionFlags::SA_RESTART`. -/
def SA_RESTART : Nat := 0x10000000

/-- `SigActionFlags::SA_RESTORER`. -/
def SA_RESTORER : Nat := 0x04000000

/-- `SigAction` from `src/signal/action.rs`. -/
structure SigAction where
  sa_handler : Nat
  sa_flags : Nat
  sa_restorer : Nat
  sa_mask : Nat
deriving Repr, DecidableEq

/-- `SigAction::default` (all fields zero; the derived `Default`). -/
def SigAction.default : SigAction := ⟨0, 0, 0, 0⟩

/-- `SigAction::get_storer`: the custom restorer address when `SA_RESTORER`
is set. -/
def SigAction.get_storer (a : SigAction) : Option Nat :=
  if a.sa_flags &&& SA_RESTORER ≠ 0 then some a.sa_restorer else none

/-- `SigAction::need_restart`. -/
def SigAction.need_restart (a : SigAction) : Bool :=
  a.sa_flags &&& SA_RESTART ≠ 0

/-- `SignalDefault` from `src/signal/action.rs`: default dispositions. -/
inductive SignalDefault where
  | Terminate
  | Ignore
  | Core
  | Stop
  | Cont
deriving Repr, DecidableEq

/-- `SignalDefault::get_action`, the per-signal default-disposition table of
`src/signal/action.rs`; signal numbers are the standard Linux ones (the
`SignalNo` enum of the missing `signal_no.rs` is modelled from the spec). -/
def SignalDefault.get_action (signal : Nat) : SignalDefault :=
  if signal = 6 then .Core            -- SIGABRT
  else if signal = 14 then .Terminate -- SIGALRM
  else if signal = 7 then .Core       -- SIGBUS
  else if signal = 17 then .Ignore    -- SIGCHLD
  else if signal = 18 then .Cont      -- SIGCONT
  else if signal = 8 then .Core       -- SIGFPE
  else if signal = 1 then .Terminate  -- SIGHUP
  else if signal = 4 then .Core       -- SIGILL
  else if signal = 2 then .Terminate  -- SIGINT
  else if signal = 9 then .Terminate  -- SIGKILL
  else if signal = 13 then .Terminate -- SIGPIPE
  else if signal = 3 then .Core       -- SIGQUIT
  else if signal = 11 then .Core      -- SIGSEGV
  else if signal = 19 then .Stop      -- SIGSTOP
  else if signal = 15 then .Terminate -- SIGTERM
  else if signal = 20 then .Stop      -- SIGTSTP
  else if signal = 21 then .Stop      -- SIGTTIN
  else if signal = 22 then .Stop      -- SIGTTOU
  else if signal = 10 then .Terminate -- SIGUSR1
  else if signal = 12 then .Terminate -- SIGUSR2
  else if signal = 24 then .Core      -- SIGXCPU
  else if signal = 25 then .Core      -- SIGXFSZ
  else if signal = 26 then .Terminate -- SIGVTALRM
  else if signal = 27 then .Terminate -- SIGPROF
  else if signal = 28 then .Ignore    -- SIGWINCH
  else if signal = 29 then .Terminate -- SIGIO
  else if signal = 30 then .Terminate -- SIGPWR
  else if signal = 31 then .Core      -- SIGSYS
  else .Terminate

/-- `SignalHandler` from `src/signal/mod.rs`: the 64-entry action array,
modelled as a total function on the 0-based index. -/
structure SignalHandler where
  handlers : Nat → SigAction

/-- `SignalHandler::new`: every entry defaulted. -/
def SignalHandler.new : SignalHandler := ⟨fun _ => SigAction.default⟩

/-- `SignalHandler::get_action(sig_num)` reads entry `sig_num - 1`. -/
def SignalHandler.get_action (h : SignalHandler) (sig_num : Nat) : SigAction :=
  h.handlers (sig_num - 1)

/-- `SignalHandler::set_action(sig_num, action)` writes entry `sig_num - 1`. -/
def SignalHandler.set_action (h : SignalHandler) (sig_num : Nat)
    (action : SigAction) : SignalHandler :=
  ⟨fun i => if i = sig_num - 1 then action else h.handlers i⟩

/-! ## Alternate signal stack (`src/signal/ucontext/mod.rs`) -/

/-- `SS_DISABLE` from `src/signal/ucontext/mod.rs`. -/
def SS_DISABLE : Nat := 2

/-- Modelled from the spec: `SignalStack` (the RISC-V definition is missing
from the sources) is the `alt_stack` descriptor `{base, size, flags}`; its
default is the disabled stack. -/
structure SignalStack where
  sp : Nat
  size : Nat
  flags : Nat
deriving Repr, DecidableEq

/-- Modelled from the spec: the default alternate stack is disabled. -/
def SignalStack.default : SignalStack := ⟨0, 0, SS_DISABLE⟩

/-! ## Trap frames

`TrapFrame` lives in the external `axhal` collaborator; only the fields the
core touches are modelled: the RISC-V argument/stack registers and `sepc`. -/

structure GeneralRegisters where
  sp : Nat
  a0 : Nat
  a1 : Nat
  a2 : Nat
deriving Repr, DecidableEq

structure TrapFrame where
  regs : GeneralRegisters
  sepc : Nat
deriving Repr, DecidableEq

/-- `TrapFrame::arg0`. -/
def TrapFrame.arg0 (tf : TrapFrame) : Nat := tf.regs.a0

/-! ## `SignalModule` (`src/process/signal.rs`) -/

/-- `USER_SIGNAL_PROTECT` from `src/process/signal.rs`. -/
def USER_SIGNAL_PROTECT : Nat := 512

/-- `SignalModule`: one per thread. -/
structure SignalModule where
  sig_info : Bool
  last_trap_frame : Option TrapFrame
  sig_handler : SignalHandler
  sig_set : SignalSet
  exit_sig : Option Nat
  stack : SignalStack

/-- `SignalModule::new`. -/
def SignalModule.new (handler : Option SignalHandler) : SignalModule :=
  ⟨false, none, handler.getD SignalHandler.new, SignalSet.new, none,
    SignalStack.default⟩

/-- Result of `load_trap_for_signal`: the (possibly updated) module, the trap
frame written back to the kernel stack (if any), and the returned `bool`. -/
structure LoadTrapResult where
  sm : SignalModule
  kstackWrite : Option TrapFrame
  loaded : Bool

/-- `load_trap_for_signal` from `src/process/signal.rs`: when a saved trap
frame exists, overwrite the kernel-stack frame with it (re-reading the
program counter from the user-context record at the current `sp` when
`sig_info` is set) and return `true`; otherwise return `false`.  The current
kernel-stack frame and the user-memory read are passed explicitly.  Note the
source never assigns `last_trap_frame = None`: the module is returned
unchanged. -/
def load_trap_for_signal (sm : SignalModule) (kstackTF : TrapFrame)
    (readUC : Nat → SignalUserContext) : LoadTrapResult :=
  match sm.last_trap_frame with
  | some old_trap_frame =>
    let sp := kstackTF.regs.sp
    let now_trap_frame :=
      if sm.sig_info then
        { old_trap_frame with sepc := (readUC sp).get_pc }
      else old_trap_frame
    ⟨sm, some now_trap_frame, true⟩
  | none => ⟨sm, none, false⟩

/-- `signal_return` from `src/process/signal.rs`: restore via
`load_trap_for_signal`, then return the restored frame's `a0` (read back from
the kernel stack) as `isize`, or `-1` when nothing was loaded. -/
def signal_return (sm : SignalModule) (kstackTF : TrapFrame)
    (readUC : Nat → SignalUserContext) : SignalModule × Option TrapFrame × Int :=
  let r := load_trap_for_signal sm kstackTF readUC
  if r.loaded then
    (r.sm, r.kstackWrite, toSigned64 (r.kstackWrite.getD kstackTF).arg0)
  else
    (r.sm, r.kstackWrite, -1)

/-! ## The signal dispatcher `handle_signals` (`src/process/signal.rs`) -/

/-- `core::mem::size_of::<SigInfo>()` under `repr(C)` on the 64-bit target. -/
def SIGINFO_SIZE : Nat := 40

/-- Modelled from the spec: byte size of the missing RISC-V
`SignalUserContext` record (its exact value affects only stack addresses,
never which record is written). -/
def UCONTEXT_SIZE : Nat := 128

/-- Everything `handle_signals` does to its surroundings: whether `sys_exit`
was invoked (and with which status), whether an `unimplemented!` panic was
reached (Stop/Cont defaults), a signal forwarded to the main thread by
`terminate_process` on a non-main thread, the updated signal module, the trap
frame written back to the kernel stack, the user-stack writes of the
signal-info and user-context records, and the lazily mapped stack range. -/
structure HsOut where
  exitCalled : Option Int
  panicked : Bool
  forwardedSig : Option Nat
  sm : SignalModule
  kstackWrite : Option TrapFrame
  infoWrite : Option (Nat × SigInfo)
  ucWrite : Option (Nat × SignalUserContext)
  allocRange : Option (Nat × Nat)

/-- `handle_signals` from `src/process/signal.rs`, for the current thread:
`procExited` is `proc.is_exited`, `isMain` tells whether the current thread
is the process's main thread (used by `terminate_process`), `sm` is the
thread's signal module, `ktf` the trap frame on the kernel stack, and
`readUC` the user-memory read used by the Ignore-default restore path. -/
def handle_signals (procExited isMain : Bool) (sm : SignalModule)
    (ktf : TrapFrame) (readUC : Nat → SignalUserContext) : HsOut :=
  if procExited then
    -- 进程已经退出，不再处理信号: sys_exit(0)
    ⟨some 0, false, none, sm, none, none, none, none⟩
  else
    match sm.sig_set.get_one_sig with
    | (none, _) => ⟨none, false, none, sm, none, none, none, none⟩
    | (some sig_num, sigSet') =>
      let sm := { sm with sig_set := sigSet' }
      let signal := sig_num
      let mask := sigSet'.mask
      if sm.last_trap_frame.isSome then
        -- 之前的信号处理还没有完成，产生了信号嵌套
        if signal = SIGSEGV ∨ signal = SIGBUS then
          -- sys_exit(-1)
          ⟨some (-1), false, none, sm, none, none, none, none⟩
        else
          ⟨none, false, none, sm, none, none, none, none⟩
      else
        -- 保存当前的 trap frame
        let sm := { sm with last_trap_frame := some ktf, sig_info := false }
        let action := sm.sig_handler.get_action sig_num
        if action.sa_handler = SIG_DFL then
          match SignalDefault.get_action signal with
          | .Ignore =>
            let r := load_trap_for_signal sm ktf readUC
            ⟨none, false, none, r.sm, r.kstackWrite, none, none, none⟩
          | .Terminate =>
            if isMain then ⟨some (signal : Int), false, none, sm, none, none, none, none⟩
            else ⟨some (-1), false, some signal, sm, none, none, none, none⟩
          | .Stop => ⟨none, true, none, sm, none, none, none, none⟩
          | .Cont => ⟨none, true, none, sm, none, none, none, none⟩
          | .Core =>
            if isMain then ⟨some (signal : Int), false, none, sm, none, none, none, none⟩
            else ⟨some (-1), false, some signal, sm, none, none, none, none⟩
        else if action.sa_handler = SIG_IGN then
          ⟨none, false, none, sm, none, none, none, none⟩
        else
          let trap_frame := ktf
          let sp :=
            if action.sa_flags &&& SA_ONSTACK ≠ 0 ∧ sm.stack.flags ≠ SS_DISABLE
            then (sm.stack.sp + sm.stack.size - 1) &&& usizeNot 0xf
            else trap_frame.regs.sp - USER_SIGNAL_PROTECT
          let old_pc := trap_frame.sepc
          let trap_frame :=
            { trap_frame with
                sepc := action.sa_handler
                regs := { trap_frame.regs with a0 := sig_num } }
          if action.sa_flags &&& SA_SIGINFO ≠ 0 then
            let sm := { sm with sig_info := true }
            let sp_base :=
              (((sp - SIGINFO_SIZE) &&& usizeNot 0xf) - UCONTEXT_SIZE)
                &&& usizeNot 0xf
            let sp1 := (sp - SIGINFO_SIZE) &&& usizeNot 0xf
            let info :=
              match lookupAL sigSet'.info (sig_num - 1) with
              | some pr => pr.1
              | none => { SigInfo.default with si_signo := (sig_num : Int) }
            let trap_frame :=
              { trap_frame with regs := { trap_frame.regs with a1 := sp1 } }
            let sp2 := (sp1 - UCONTEXT_SIZE) &&& usizeNot 0xf
            let ucontext := SignalUserContext.init old_pc mask
            let trap_frame :=
              { trap_frame with
                  regs := { trap_frame.regs with a2 := sp2, sp := sp2 } }
            ⟨none, false, none, sm, some trap_frame, some (sp1, info),
              some (sp2, ucontext), some (sp_base, sp)⟩
          else
            let trap_frame :=
              { trap_frame with regs := { trap_frame.regs with sp := sp } }
            ⟨none, false, none, sm, some trap_frame, none, none, none⟩

/-! ## `send_signal_to_proc` (`src/process/signal.rs`) and the Process
Registry slice it needs (`src/process/api.rs`) -/

/-- The slice of `Process` that signal sending touches: `pid` and the
per-thread signal-module table.  The main thread's id equals `pid`
(`set_main_thread` asserts `thread.id() == pid`). -/
structure ProcSig where
  pid : Nat
  signal_module : List (Nat × SignalModule)

/-- Outcome of `send_signal_to_proc`: Registry lookup miss is `NotFound`; a
missing main-thread module makes the source's `unwrap()` panic. -/
inductive SendResult where
  | notFound
  | panicked
  | ok (registry : List (Nat × ProcSig))

/-- Discriminator for the `NotFound` outcome. -/
def SendResult.isNotFound : SendResult → Bool
  | .notFound => true
  | _ => false

/-- `send_signal_to_proc` from `src/process/signal.rs`: look the process up
in the Registry (`NotFound` if absent), then `try_add_sig` on the main
thread's signal module. -/
def send_signal_to_proc (registry : List (Nat × ProcSig)) (pid : Nat)
    (signal : Int) (info : Option SigInfo) : SendResult :=
  match lookupAL registry pid with
  | none => .notFound
  | some proc =>
    match lookupAL proc.signal_module proc.pid with
    | none => .panicked
    | some sig_module =>
      let sig_module' :=
        { sig_module with
            sig_set := sig_module.sig_set.try_add_sig (usizeOfInt signal) info }
      .ok (insertAL registry pid
        { proc with
            signal_module := insertAL proc.signal_module proc.pid sig_module' })

/-! ## Syscall wrappers (`src/syscall_imp/signal.rs`) -/

/-- `LinuxError::ESRCH` as a positive errno. -/
def ESRCH : Int := 3

/-- `LinuxError::EINVAL` as a positive errno. -/
def EINVAL : Int := 22

/-- `sys_kill` from `src/syscall_imp/signal.rs`: for `pid > 0 && signum > 0`
the result of `send_signal_to_proc` is discarded (`let _ = ...`) and the
syscall returns 0; `pid == 0` yields `-ESRCH`, anything else `-EINVAL`
(`syscall_body!` maps `Err(e)` to the negative errno).  `none` stands for the
panic case of `send_signal_to_proc`. -/
def sys_kill (registry : List (Nat × ProcSig)) (pid signum : Int) :
    Option (Int × List (Nat × ProcSig)) :=
  if pid > 0 ∧ signum > 0 then
    match send_signal_to_proc registry (usizeOfInt pid) signum none with
    | .ok registry' => some (0, registry')
    | .notFound => some (0, registry)
    | .panicked => none
  else if pid = 0 then
    some (-ESRCH, registry)
  else
    some (-EINVAL, registry)

/-- The mask-combination step of `sys_sigprocmask`
(`src/syscall_imp/signal.rs` lines 33-46): `SigMaskFlag` 0 = Block (OR),
1 = Unblock (AND-NOT), 2 = Setmask (replace). -/
def sigprocmask_apply (flag : Nat) (mask now_mask : Nat) : Nat :=
  if flag = 0 then mask ||| now_mask
  else if flag = 1 then mask &&& usizeNot now_mask
  else now_mask

/-! ## The wait/reap protocol (`src/process/api.rs`) -/

/-- Modelled from the spec (the `flag.rs` defining it is missing from the
sources): the three wait states `NotExist` / `Running` / `Exited`. -/
inductive WaitStatus where
  | NotExist
  | Running
  | Exited
deriving Repr, DecidableEq

/-- `axtask::TaskState` as produced by `Process::state`: `Exited` iff
`is_exited`, else `Running`. -/
inductive TaskState where
  | Running
  | Exited
deriving Repr, DecidableEq

/-- The slice of a child `Process` that `wait_pid` reads: `pid`,
`is_exited`, and `exit_code`. -/
structure ChildProc where
  pid : Nat
  is_exited : Bool
  exit_code : Int
deriving Repr, DecidableEq

/-- `Process::state` from `src/process/mod.rs`. -/
def ChildProc.state (c : ChildProc) : TaskState :=
  if c.is_exited then .Exited else .Running

/-- The matching predicate of `wait_pid`'s child scan:
`child.pid as i32 == pid`. -/
def pidMatch (pid : Int) (c : ChildProc) : Bool := intCast32 c.pid == pid

/-- `iter().enumerate().find(...)`: first element satisfying `p`, with its
index (the accumulator starts at 0). -/
def findEnum {α : Type} (p : α → Bool) : List α → Nat → Option (Nat × α)
  | [], _ => none
  | a :: rest, i => if p a then some (i, a) else findEnum p rest (i + 1)

/-- `Result<u64, WaitStatus>`. -/
inductive WaitRes where
  | ok (pid : Nat)
  | err (status : WaitStatus)
deriving Repr, DecidableEq

/-- The result of one `wait_pid` call: the syscall result, the exit-status
word written through `exit_code_ptr` (if any), and the updated children
list. -/
structure WaitOut where
  res : WaitRes
  statusWrite : Option Int
  children : List ChildProc
deriving Repr, DecidableEq

/-- The `pid > 0` path of `wait_pid` from `src/process/api.rs`: find the
child whose pid (as `i32`) equals `pid`; absent ⇒ `NotExist`; running ⇒
`Running`; exited ⇒ write `exit_code << 8` (i32 shift) when the status
pointer is non-null, remove the child at the found index, return its pid.
`wantStatus` stands for `!exit_code_ptr.is_null()`. -/
def wait_pid_pos (children : List ChildProc) (pid : Int) (wantStatus : Bool) :
    WaitOut :=
  match findEnum (pidMatch pid) children 0 with
  | none => ⟨.err .NotExist, none, children⟩
  | some (loc, child) =>
    match child.state with
    | .Running => ⟨.err .Running, none, children⟩
    | .Exited =>
      let exit_code := child.exit_code
      let w := if wantStatus then some (wrap32 (exit_code * 2 ^ 8)) else none
      ⟨.ok child.pid, w, children.eraseIdx loc⟩

/-- The scan of `wait_pid_negative`: status stays `NotExist` for an empty
list, becomes `Running` per examined child, and `Exited` (with the index)
at the first exited child. -/
def waitNegScan : List ChildProc → Nat → WaitStatus × Nat
  | [], _ => (.NotExist, 0)
  | c :: rest, i =>
    if c.state = TaskState.Exited then (.Exited, i)
    else
      match waitNegScan rest (i + 1) with
      | (.NotExist, _) => (.Running, 0)
      | r => r

/-- `wait_pid_negative` from `src/process/api.rs` (`pid <= 0`: reap any
child; process groups unimplemented). -/
def wait_pid_negative (children : List ChildProc) (wantStatus : Bool) :
    WaitOut :=
  match waitNegScan children 0 with
  | (.Exited, child_id) =>
    match children.get? child_id with
    | some child =>
      let w :=
        if wantStatus then some (wrap32 (child.exit_code * 2 ^ 8)) else none
      ⟨.ok child.pid, w, children.eraseIdx child_id⟩
    | none => ⟨.err .NotExist, none, children⟩
  | (status, _) => ⟨.err status, none, children⟩

/-- `wait_pid` from `src/process/api.rs`: dispatch on the sign of `pid`. -/
def wait_pid (children : List ChildProc) (pid : Int) (wantStatus : Bool) :
    WaitOut :=
  if pid ≤ 0 then wait_pid_negative children wantStatus
  else wait_pid_pos children pid wantStatus

/-! ## `clone` (`src/process/mod.rs`) -/

/-- Modelled from the spec (the `flag.rs` defining `CloneFlags` is missing
from the sources): standard Linux `clone(2)` flag values. -/
def CLONE_VM : Nat := 0x100

/-- Modelled from the spec: standard Linux `CLONE_FILES`. -/
def CLONE_FILES : Nat := 0x400

/-- Modelled from the spec: standard Linux `CLONE_PARENT`. -/
def CLONE_PARENT : Nat := 0x8000

/-- Modelled from the spec: standard Linux `CLONE_THREAD`. -/
def CLONE_THREAD : Nat := 0x10000

/-- Modelled from the spec: standard Linux `CLONE_CHILD_CLEARTID`. -/
def CLONE_CHILD_CLEARTID : Nat := 0x200000

/-- `CloneFlags::from_bits(flags & !0x3f)`: the low six bits (the exit
signal) are masked off before any flag test. -/
def cloneFlagBits (flags : Nat) : Nat := flags &&& usizeNot 0x3f

/-- Address spaces for the `clone` model: a pool of reference-counted
spaces; a handle is an index, sharing is handle equality, and memory content
is a word map so that cross-visibility of writes is expressible. -/
structure AspaceWorld where
  spaces : List (List (Nat × Nat))
deriving Repr, DecidableEq

/-- Read one word of an address space. -/
def AspaceWorld.read (w : AspaceWorld) (handle addr : Nat) : Option Nat :=
  (w.spaces.get? handle).bind (fun m => lookupAL m addr)

/-- Write one word through an address-space handle. -/
def AspaceWorld.write (w : AspaceWorld) (handle addr val : Nat) : AspaceWorld :=
  ⟨w.spaces.mapIdx (fun i m => if i = handle then insertAL m addr val else m)⟩

/-- The address-space decision of `Process::clone_proc`
(`src/process/mod.rs` lines 165-172): with `CLONE_VM` the `Arc` is cloned
(same handle); without `CLONE_VM` the deep copy is commented out behind a
TODO ("现在用共享空间代替") and the `Arc` is cloned as well — both branches
share the caller's address space. -/
def clone_select_aspace (flags : Nat) (w : AspaceWorld) (parent : Nat) :
    Nat × AspaceWorld :=
  if cloneFlagBits flags &&& CLONE_VM ≠ 0 then (parent, w)
  else (parent, w)

/-- Modelled from the spec, for comparison with `clone_select_aspace`: "a
new address space is either shared (`CLONE_VM` set: clone the reference) or
duplicated (`CLONE_VM` unset: a deep copy of the current address space's
mappings)". -/
def clone_select_aspace_spec (flags : Nat) (w : AspaceWorld) (parent : Nat) :
    Nat × AspaceWorld :=
  if cloneFlagBits flags &&& CLONE_VM ≠ 0 then (parent, w)
  else (w.spaces.length, ⟨w.spaces ++ [(w.spaces.get? parent).getD []]⟩)

/-- The slice of `Process` that `clone_thread` touches: `pid`, the thread
table (tid → task handle) and the signal-module table. -/
structure ProcThreads where
  pid : Nat
  threads : List (Nat × Nat)
  signal_module : List (Nat × SignalModule)

/-- `Process::add_thread` from `src/process/mod.rs`: insert a fresh signal
module and the thread, both keyed by the thread id. -/
def ProcThreads.add_thread (p : ProcThreads) (tid task : Nat) : ProcThreads :=
  { p with
      signal_module := insertAL p.signal_module tid (SignalModule.new none)
      threads := insertAL p.threads tid task }

/-- Everything `Process::clone_thread` produces: the `Ok` return value, the
updated process, the id the new task was created with, the next fresh task
id, the child's initial trap frame, and the recorded clear-child-tid. -/
structure CloneThreadOut where
  ret : Nat
  proc : ProcThreads
  newTid : Nat
  nextTid : Nat
  childFrame : TrapFrame
  clearChildTid : Option Nat

/-- `Process::clone_thread` from `src/process/mod.rs` (lines 224-265): spawn
a task with a fresh id, copy the caller's trap frame with `a0 := 0`,
`sepc += 4` and an optional explicit stack pointer, record the
clear-child-tid when `CLONE_CHILD_CLEARTID` is set, register the thread via
`add_thread`, and return `Ok(proc.pid)`.  Task-id allocation by the external
scheduler is modelled by the `nextTid` counter. -/
def clone_thread (proc : ProcThreads) (nextTid : Nat) (flags : Nat)
    (stack : Option Nat) (ctid : Nat) (callerTF : TrapFrame) : CloneThreadOut :=
  let tid := nextTid
  let trap_frame :=
    { callerTF with
        sepc := callerTF.sepc + 4
        regs := { callerTF.regs with a0 := 0 } }
  let trap_frame :=
    match stack with
    | some sp => { trap_frame with regs := { trap_frame.regs with sp := sp } }
    | none => trap_frame
  let clearTid :=
    if cloneFlagBits flags &&& CLONE_CHILD_CLEARTID ≠ 0 then some ctid
    else none
  let proc' := proc.add_thread tid tid
  ⟨proc.pid, proc', tid, nextTid + 1, trap_frame, clearTid⟩

/-! ## Concrete states used to evaluate the code on specific inputs -/

/-- A registry holding one process, pid 5, whose main thread (tid 5) has a
fresh signal module. -/
def regC1 : List (Nat × ProcSig) := [(5, ⟨5, [(5, SignalModule.new none)]⟩)]

/-- Extract the main thread's `SignalSet` from a successful send. -/
def sentSigSet (r : SendResult) (pid : Nat) : Option SignalSet :=
  match r with
  | .ok reg =>
    (lookupAL reg pid).bind
      (fun p => (lookupAL p.signal_module p.pid).map SignalModule.sig_set)
  | _ => none

/-- A trap frame interrupted at `sepc = 0x400` whose return-value register
holds 42. -/
def tfC4 : TrapFrame := ⟨⟨0x9000, 42, 0, 0⟩, 0x400⟩

/-- The kernel-stack frame of the `sigreturn` call itself. -/
def ktfC4 : TrapFrame := ⟨⟨0x8000, 139, 1, 2⟩, 0x500⟩

/-- A signal module in the Delivering state: `tfC4` is the saved frame. -/
def smC4 : SignalModule :=
  ⟨false, some tfC4, SignalHandler.new, SignalSet.new, none,
    SignalStack.default⟩

/-- The frame saved while a handler is executing (claim C5 scenario). -/
def tfC5 : TrapFrame := ⟨⟨0x7000, 3, 4, 5⟩, 0x600⟩

/-- A delivering thread (saved frame present) with signal 2 pending and an
empty blocked mask. -/
def smC5 : SignalModule :=
  ⟨false, some tfC5, SignalHandler.new, ⟨0, 2, []⟩, none, SignalStack.default⟩

/-- An address-space world with one space (handle 0) whose word at address
0 is 0. -/
def worldC2 : AspaceWorld := ⟨[[(0, 0)]]⟩

/-- A process with pid 5 whose only thread is its main thread (tid 5). -/
def procC3 : ProcThreads := ⟨5, [(5, 5)], [(5, SignalModule.new none)]⟩

/-- A user handler at `0x4000` requesting `SA_SIGINFO` delivery. -/
def actC10 : SigAction := ⟨0x4000, SA_SIGINFO, 0, 0⟩

/-- A sender-supplied auxiliary payload, recognisably not the default. -/
def payloadC10 : SigInfo := ⟨10, 0, 0, 0, 77, 0, 1234, 0⟩

/-- An idle thread whose signal state is what `try_add_sig 10 payload` left
behind: info stored under key 10, and signal 10 made pending by hand (the
dispatcher is being exercised, so a pending bit is required; `try_add_sig`
itself never sets one). -/
def smC10 : SignalModule :=
  ⟨false, none, SignalHandler.new.set_action 10 actC10,
    ⟨0, 2 ^ 9, (SignalSet.new.try_add_sig 10 (some payloadC10)).info⟩, none,
    SignalStack.default⟩

/-- The interrupted user frame for the C10 delivery. -/
def ktfC10 : TrapFrame := ⟨⟨0x10000, 7, 8, 9⟩, 0x2000⟩

/-! ## Facts about `scanBit` and `trailingZeros64` -/

theorem scanBit_none_forward (p : Nat → Bool) :
    ∀ n, scanBit p n = none → ∀ i, i < n → p i = false := by
  intro n
  induction n with
  | zero => intro _ i hi; exact absurd hi (Nat.not_lt_zero i)
  | succ n ih =>
    intro h i hi
    simp only [scanBit] at h
    cases e : scanBit p n with
    | some k => rw [e] at h; simp at h
    | none =>
      rw [e] at h
      by_cases hp : p n = true
      · simp [hp] at h
      · rcases Nat.lt_succ_iff_lt_or_eq.mp hi with h' | h'
        · exact ih e i h'
        · subst h'; simpa using hp

theorem scanBit_none_intro (p : Nat → Bool) :
    ∀ n, (∀ i, i < n → p i = false) → scanBit p n = none := by
  intro n
  induction n with
  | zero => intro _; rfl
  | succ n ih =>
    intro h
    have hrec : scanBit p n = none := ih fun i hi => h i (Nat.lt_succ_of_lt hi)
    simp only [scanBit, hrec]
    simp [h n (Nat.lt_succ_self n)]

theorem scanBit_some (p : Nat → Bool) :
    ∀ n i, scanBit p n = some i →
      i < n ∧ p i = true ∧ ∀ j, j < i → p j = false := by
  intro n
  induction n with
  | zero => intro i h; simp [scanBit] at h
  | succ n ih =>
    intro i h
    simp only [scanBit] at h
    cases e : scanBit p n with
    | some k =>
      rw [e] at h
      simp only [Option.some.injEq] at h
      subst h
      obtain ⟨h1, h2, h3⟩ := ih k e
      exact ⟨Nat.lt_succ_of_lt h1, h2, h3⟩
    | none =>
      rw [e] at h
      by_cases hp : p n = true
      · simp only [hp, if_true, Option.some.injEq] at h
        subst h
        exact ⟨Nat.lt_succ_self n, hp, scanBit_none_forward p n e⟩
      · simp [hp] at h

theorem scanBit_some_intro (p : Nat → Bool) :
    ∀ n i, i < n → p i = true → (∀ j, j < i → p j = false) →
      scanBit p n = some i := by
  intro n
  induction n with
  | zero => intro i hi; exact absurd hi (Nat.not_lt_zero i)
  | succ n ih =>
    intro i hi hp hmin
    simp only [scanBit]
    rcases Nat.lt_succ_iff_lt_or_eq.mp hi with h' | h'
    · rw [ih i h' hp hmin]
    · subst h'
      rw [scanBit_none_intro p i hmin]
      simp [hp]

theorem scanBit_congr {p q : Nat → Bool} :
    ∀ n, (∀ i, i < n → p i = q i) → scanBit p n = scanBit q n := by
  intro n
  induction n with
  | zero => intro _; rfl
  | succ n ih =>
    intro h
    simp only [scanBit]
    rw [ih fun i hi => h i (Nat.lt_succ_of_lt hi), h n (Nat.lt_succ_self n)]

theorem trailingZeros64_le (x : Nat) : trailingZeros64 x ≤ 64 := by
  unfold trailingZeros64
  cases e : scanBit x.testBit 64 with
  | some i => simpa using Nat.le_of_lt (scanBit_some _ 64 i e).1
  | none => simp

theorem trailingZeros64_spec_lt {x : Nat} (h : trailingZeros64 x ≠ 64) :
    trailingZeros64 x < 64 ∧ x.testBit (trailingZeros64 x) = true ∧
      ∀ j, j < trailingZeros64 x → x.testBit j = false := by
  unfold trailingZeros64 at h ⊢
  cases e : scanBit x.testBit 64 with
  | some i =>
    simp only [Option.getD_some] at h ⊢
    exact scanBit_some _ 64 i e
  | none => rw [e] at h; simp at h

theorem trailingZeros64_spec_eq {x : Nat} (h : trailingZeros64 x = 64) :
    ∀ i, i < 64 → x.testBit i = false := by
  unfold trailingZeros64 at h
  cases e : scanBit x.testBit 64 with
  | none => exact scanBit_none_forward _ 64 e
  | some i =>
    rw [e] at h
    simp only [Option.getD_some] at h
    subst h
    exact absurd (scanBit_some _ 64 _ e).1 (by omega)

/-! ## Bit-level helpers -/

theorem land_one_shiftLeft_eq_zero_iff (x i : Nat) :
    x &&& (1 <<< i) = 0 ↔ x.testBit i = false := by
  rw [Nat.one_shiftLeft]
  constructor
  · intro h
    by_contra hbit
    have hbit' : x.testBit i = true := by
      cases hx : x.testBit i
      · exact absurd hx hbit
      · rfl
    have : (x &&& 2 ^ i).testBit i = true := by
      rw [Nat.testBit_and]
      simp [hbit', Nat.testBit_two_pow_self]
    rw [h] at this
    simp at this
  · intro h
    apply Nat.eq_of_testBit_eq
    intro j
    rw [Nat.testBit_and, Nat.zero_testBit]
    by_cases hji : j = i
    · subst hji; simp [h]
    · simp [Nat.testBit_two_pow, Ne.symm hji]

theorem testBit_land_usizeNot_shiftLeft (x pos i : Nat) (hi : i < 64) :
    (x &&& usizeNot (1 <<< pos)).testBit i =
      (x.testBit i && !(decide (i = pos))) := by
  rw [Nat.testBit_and]
  unfold usizeNot U64MAX
  rw [Nat.testBit_xor, Nat.one_shiftLeft, Nat.testBit_two_pow_sub_one,
    Nat.testBit_two_pow, decide_eq_true hi]
  cases hx : x.testBit i
  · simp
  · by_cases hip : pos = i
    · subst hip; simp
    · simp [hip, Ne.symm hip]

theorem trailingZeros64_ge_of_low_false {x k : Nat}
    (h : ∀ j, j ≤ k → x.testBit j = false) (hk : k < 64) :
    k + 1 ≤ trailingZeros64 x := by
  by_cases h64 : trailingZeros64 x = 64
  · omega
  · obtain ⟨_, hbit, _⟩ := trailingZeros64_spec_lt h64
    by_contra hc
    push_neg at hc
    have hfalse := h (trailingZeros64 x) (by omega)
    rw [hbit] at hfalse
    cases hfalse

/-! ## Characterisation of `find_sig` -/

theorem find_sig_loop_eq (mask : Nat) :
    ∀ fuel pending, 65 ≤ fuel + trailingZeros64 pending →
      find_sig_loop mask fuel pending =
        (scanBit (selB mask pending) 64).map (· + 1) := by
  intro fuel
  induction fuel with
  | zero =>
    intro pending h
    have := trailingZeros64_le pending
    omega
  | succ fuel ih =>
    intro pending h
    simp only [find_sig_loop]
    by_cases hp : trailingZeros64 pending = MAX_SIG_NUM
    · rw [if_pos hp]
      have hall := trailingZeros64_spec_eq hp
      rw [scanBit_none_intro]
      · rfl
      · intro i hi
        unfold selB
        rw [hall i hi]
        rfl
    · rw [if_neg hp]
      obtain ⟨hlt, hbit, hmin⟩ := trailingZeros64_spec_lt hp
      by_cases he : mask &&& (1 <<< trailingZeros64 pending) = 0 ∨
          trailingZeros64 pending = SIGKILL - 1 ∨
          trailingZeros64 pending = SIGSTOP - 1
      · rw [if_pos he]
        rw [scanBit_some_intro (selB mask pending) 64 (trailingZeros64 pending)
          hlt ?_ ?_]
        · rfl
        · unfold selB
          rw [hbit]
          rcases he with h1 | h1 | h1 <;> simp [h1]
        · intro j hj
          unfold selB
          rw [hmin j hj]
          rfl
      · rw [if_neg he]
        have hlow : ∀ j, j ≤ trailingZeros64 pending →
            (pending &&& usizeNot (1 <<< trailingZeros64 pending)).testBit j =
              false := by
          intro j hj
          rw [testBit_land_usizeNot_shiftLeft _ _ _ (by omega)]
          rcases Nat.lt_or_ge j (trailingZeros64 pending) with h' | h'
          · rw [hmin j h']
            rfl
          · have : j = trailingZeros64 pending := by omega
            simp [this]
        have htz' := trailingZeros64_ge_of_low_false hlow hlt
        rw [ih _ (by omega)]
        have hcongr : ∀ i, i < 64 →
            selB mask (pending &&& usizeNot (1 <<< trailingZeros64 pending)) i =
              selB mask pending i := by
          intro i hi
          by_cases hipos : i = trailingZeros64 pending
          · unfold selB
            rw [hipos, hlow _ (Nat.le_refl _), hbit]
            have hX : (decide (mask &&& (1 <<< trailingZeros64 pending) = 0) ||
                decide (trailingZeros64 pending = SIGKILL - 1) ||
                decide (trailingZeros64 pending = SIGSTOP - 1)) = false := by
              rcases Bool.eq_false_or_eq_true
                (decide (mask &&& (1 <<< trailingZeros64 pending) = 0) ||
                  decide (trailingZeros64 pending = SIGKILL - 1) ||
                  decide (trailingZeros64 pending = SIGSTOP - 1)) with ht | hf
              · exfalso
                apply he
                simpa [or_assoc] using ht
              · exact hf
            rw [hX]
            simp
          · unfold selB
            rw [testBit_land_usizeNot_shiftLeft _ _ _ hi]
            simp [hipos]
        rw [scanBit_congr 64 hcongr]

theorem find_sig_eq_scan (s : SignalSet) :
    s.find_sig = (scanBit (selB s.mask s.pending) 64).map (· + 1) := by
  unfold SignalSet.find_sig
  apply find_sig_loop_eq
  have := trailingZeros64_le s.pending
  unfold MAX_SIG_NUM
  omega

theorem selB_eq_true_iff (s : SignalSet) (i : Nat) :
    selB s.mask s.pending i = true ↔ selectable s i := by
  unfold selB selectable
  simp [land_one_shiftLeft_eq_zero_iff, or_assoc]

theorem selB_eq_false_iff (s : SignalSet) (i : Nat) :
    selB s.mask s.pending i = false ↔ ¬ selectable s i := by
  rw [← selB_eq_true_iff]
  cases selB s.mask s.pending i <;> simp

theorem get_one_sig_eq_some {s : SignalSet} {sig : Nat} {s' : SignalSet}
    (h : s.get_one_sig = (some sig, s')) :
    s.find_sig = some sig ∧
      s' = { s with pending := s.pending &&& usizeNot (1 <<< (sig - 1)) } := by
  unfold SignalSet.get_one_sig at h
  cases e : s.find_sig with
  | some k =>
    rw [e] at h
    simp only [Prod.mk.injEq, Option.some.injEq] at h
    obtain ⟨h1, h2⟩ := h
    subst h1
    exact ⟨rfl, h2.symm⟩
  | none =>
    rw [e] at h
    simp at h

theorem get_one_sig_popped {s : SignalSet} {sig : Nat} {s' : SignalSet}
    (h : s.get_one_sig = (some sig, s')) :
    s'.pending.testBit (sig - 1) = false ∧ s'.mask = s.mask ∧
      s'.info = s.info ∧ 1 ≤ sig ∧ sig ≤ 64 := by
  obtain ⟨hfind, hs'⟩ := get_one_sig_eq_some h
  rw [find_sig_eq_scan] at hfind
  cases e : scanBit (selB s.mask s.pending) 64 with
  | none => rw [e] at hfind; simp at hfind
  | some k =>
    rw [e] at hfind
    simp only [Option.map_some', Option.some.injEq] at hfind
    obtain ⟨hk64, _, _⟩ := scanBit_some _ 64 k e
    subst hs'
    refine ⟨?_, rfl, rfl, by omega, by omega⟩
    rw [testBit_land_usizeNot_shiftLeft _ _ _ (by omega)]
    simp

/-- C8: signal selection (`SignalSet::find_sig`) returns `some (pos + 1)`
exactly when bit `pos` is the lowest pending bit that is unmasked or the
`SIGKILL`/`SIGSTOP` position, `none` exactly when no such bit exists, every
selected value is of that shape, and no blocked mask installed through
`sys_sigprocmask` can make a pending `SIGKILL`/`SIGSTOP` unselectable. -/
theorem find_sig_selects_lowest_eligible (s : SignalSet) :
    (∀ pos, pos < 64 →
      (s.find_sig = some (pos + 1) ↔
        selectable s pos ∧ ∀ j, j < pos → ¬ selectable s j)) ∧
    (s.find_sig = none ↔ ∀ pos, pos < 64 → ¬ selectable s pos) ∧
    (∀ m, s.find_sig = some m → ∃ pos, pos < 64 ∧ m = pos + 1) ∧
    (∀ flag nm pos, pos = SIGKILL - 1 ∨ pos = SIGSTOP - 1 →
      (selectable ⟨sigprocmask_apply flag s.mask nm, s.pending, s.info⟩ pos ↔
        s.pending.testBit pos = true)) := by
  refine ⟨?_, ?_, ?_, ?_⟩
  · intro pos hpos
    rw [find_sig_eq_scan]
    constructor
    · intro h
      cases e : scanBit (selB s.mask s.pending) 64 with
      | none => rw [e] at h; simp at h
      | some k =>
        rw [e] at h
        simp only [Option.map_some', Option.some.injEq] at h
        obtain ⟨hk64, hsel, hmin⟩ := scanBit_some _ 64 k e
        have hkp : k = pos := by omega
        subst hkp
        exact ⟨(selB_eq_true_iff s k).mp hsel,
          fun j hj => (selB_eq_false_iff s j).mp (hmin j hj)⟩
    · rintro ⟨hsel, hmin⟩
      rw [scanBit_some_intro _ 64 pos hpos ((selB_eq_true_iff s pos).mpr hsel)
        (fun j hj => (selB_eq_false_iff s j).mpr (hmin j hj))]
      rfl
  · rw [find_sig_eq_scan]
    constructor
    · intro h pos hpos
      cases e : scanBit (selB s.mask s.pending) 64 with
      | some k => rw [e] at h; simp at h
      | none =>
        exact (selB_eq_false_iff s pos).mp
          (scanBit_none_forward _ 64 e pos hpos)
    · intro h
      rw [scanBit_none_intro _ 64
        (fun i hi => (selB_eq_false_iff s i).mpr (h i hi))]
      rfl
  · intro m h
    rw [find_sig_eq_scan] at h
    cases e : scanBit (selB s.mask s.pending) 64 with
    | none => rw [e] at h; simp at h
    | some k =>
      rw [e] at h
      simp only [Option.map_some', Option.some.injEq] at h
      exact ⟨k, (scanBit_some _ 64 k e).1, h.symm⟩
  · intro flag nm pos hpos
    unfold selectable
    constructor
    · rintro ⟨h1, _⟩
      exact h1
    · intro h1
      refine ⟨h1, ?_⟩
      rcases hpos with h | h
      · exact Or.inr (Or.inl h)
      · exact Or.inr (Or.inr h)

/-- C1 (code bug): `send_signal(5, 2, none)` against a registry holding
process 5 leaves the main thread's pending mask at 0 and instead ORs bit 1
into the blocked mask (`try_add_sig` writes `self.mask`, not
`self.pending`), so the subsequent dispatch pass selects nothing.  The claim
(with spec §4.5) requires the pending bit to be set so that dispatch can
select signal 2. -/
theorem send_signal_sets_blocked_mask_not_pending :
    sentSigSet (send_signal_to_proc regC1 5 2 none) 5 =
      some ⟨2, 0, []⟩ ∧
    SignalSet.find_sig ⟨2, 0, []⟩ = none := by
  constructor
  · rfl
  · decide

/-- C4 (code bug): `sigreturn` on a thread whose module holds saved frame
`tfC4` does restore that frame to the kernel stack and does return the
restored frame's return-value register (42), but the saved-frame slot is
left occupied (`load_trap_for_signal` never assigns `None`), so the thread
never transitions back to Idle as the claim requires. -/
theorem sigreturn_leaves_saved_frame_slot_occupied :
    (signal_return smC4 ktfC4 (fun _ => SignalUserContext.default)).2.1 =
      some tfC4 ∧
    (signal_return smC4 ktfC4 (fun _ => SignalUserContext.default)).2.2 = 42 ∧
    (signal_return smC4 ktfC4
        (fun _ => SignalUserContext.default)).1.last_trap_frame = some tfC4 := by
  refine ⟨rfl, by decide, rfl⟩

/-- C5 counterexample: a thread in the Delivering state (saved frame
`tfC5`) with exactly signal 2 pending and nothing blocked; one dispatcher
pass returns without constructing a frame, but the pending mask afterwards
is 0 — the popped signal does not "remain pending" as the claim states: it
is consumed. -/
theorem nested_delivery_consumes_popped_signal :
    smC5.sig_set.pending = 2 ∧ smC5.last_trap_frame = some tfC5 ∧
    (handle_signals false true smC5 tfC5
        (fun _ => SignalUserContext.default)).sm.sig_set.pending = 0 ∧
    (handle_signals false true smC5 tfC5
        (fun _ => SignalUserContext.default)).kstackWrite = none := by
  refine ⟨rfl, rfl, by decide, rfl⟩

/-- C5 (amended): when the dispatcher pops signal `sig` for a thread that
already holds a saved trap frame: if `sig` is SIGSEGV or SIGBUS it invokes
thread exit with status -1 at once (ending the whole process when the
thread is the main thread); for any other signal no handler frame is
constructed and nothing is written, but the signal is dropped outright — its
pending bit was already cleared by `get_one_sig` — rather than left
pending. -/
theorem nested_delivery_second_signal (sm : SignalModule)
    (ktf tf0 : TrapFrame) (rd : Nat → SignalUserContext) (isMain : Bool)
    (sig : Nat) (s' : SignalSet)
    (hframe : sm.last_trap_frame = some tf0)
    (hpop : sm.sig_set.get_one_sig = (some sig, s')) :
    ((sig = SIGSEGV ∨ sig = SIGBUS) →
      (handle_signals false isMain sm ktf rd).exitCalled = some (-1)) ∧
    (sig ≠ SIGSEGV → sig ≠ SIGBUS →
      (handle_signals false isMain sm ktf rd).exitCalled = none ∧
      (handle_signals false isMain sm ktf rd).kstackWrite = none ∧
      (handle_signals false isMain sm ktf rd).infoWrite = none ∧
      (handle_signals false isMain sm ktf rd).ucWrite = none ∧
      (handle_signals false isMain sm ktf rd).sm.last_trap_frame = some tf0 ∧
      (handle_signals false isMain sm ktf rd).sm.sig_set = s' ∧
      s'.pending.testBit (sig - 1) = false) := by
  have hclear := get_one_sig_popped hpop
  constructor
  · intro hsb
    simp only [handle_signals, hpop, hframe]
    simp [hsb]
  · intro h1 h2
    have hcond : ¬(sig = SIGSEGV ∨ sig = SIGBUS) := by
      rintro (h | h)
      · exact h1 h
      · exact h2 h
    simp only [handle_signals, hpop, hframe, Option.isSome_some, if_true,
      if_neg hcond]
    exact ⟨rfl, rfl, rfl, rfl, rfl, rfl, hclear.1⟩

/-- Witness for `nested_delivery_second_signal` at the concrete Delivering
module `smC5` with popped signal 2. -/
theorem nested_delivery_second_signal_witness :
    ((2 = SIGSEGV ∨ 2 = SIGBUS) →
      (handle_signals false true smC5 tfC5
        (fun _ => SignalUserContext.default)).exitCalled = some (-1)) ∧
    (2 ≠ SIGSEGV → 2 ≠ SIGBUS →
      (handle_signals false true smC5 tfC5
        (fun _ => SignalUserContext.default)).exitCalled = none ∧
      (handle_signals false true smC5 tfC5
        (fun _ => SignalUserContext.default)).kstackWrite = none ∧
      (handle_signals false true smC5 tfC5
        (fun _ => SignalUserContext.default)).infoWrite = none ∧
      (handle_signals false true smC5 tfC5
        (fun _ => SignalUserContext.default)).ucWrite = none ∧
      (handle_signals false true smC5 tfC5
        (fun _ => SignalUserContext.default)).sm.last_trap_frame = some tfC5 ∧
      (handle_signals false true smC5 tfC5
        (fun _ => SignalUserContext.default)).sm.sig_set = ⟨0, 0, []⟩ ∧
      ((⟨0, 0, []⟩ : SignalSet).pending.testBit (2 - 1) = false)) :=
  nested_delivery_second_signal smC5 tfC5 tfC5
    (fun _ => SignalUserContext.default) true 2 ⟨0, 0, []⟩ rfl (by decide)

/-! ## Association-list lemmas -/

theorem lookupAL_insertAL_self {α : Type} (l : List (Nat × α)) (k : Nat)
    (v : α) : lookupAL (insertAL l k v) k = some v := by
  induction l with
  | nil => simp [insertAL, lookupAL, List.find?]
  | cons hd tl ih =>
    obtain ⟨k', v'⟩ := hd
    unfold insertAL
    by_cases h : k' = k
    · rw [if_pos h]
      simp [lookupAL, List.find?]
    · rw [if_neg h]
      unfold lookupAL at ih ⊢
      simp only [List.find?]
      have : (k' == k) = false := by simp [h]
      rw [this]
      exact ih

theorem lookupAL_insertAL_ne {α : Type} (l : List (Nat × α)) (k k' : Nat)
    (v : α) (h : k' ≠ k) :
    lookupAL (insertAL l k v) k' = lookupAL l k' := by
  induction l with
  | nil =>
    unfold insertAL lookupAL
    have hb : (k == k') = false := by simp [Ne.symm h]
    simp [List.find?, hb]
  | cons hd tl ih =>
    obtain ⟨k0, v0⟩ := hd
    unfold insertAL
    by_cases hk : k0 = k
    · rw [if_pos hk]
      unfold lookupAL
      simp only [List.find?]
      have h1 : (k == k') = false := by simp [Ne.symm h]
      have h2 : (k0 == k') = false := by simp [hk, Ne.symm h]
      rw [h1, h2]
    · rw [if_neg hk]
      unfold lookupAL at ih ⊢
      simp only [List.find?]
      by_cases hk0 : (k0 == k') = true
      · rw [hk0]
      · rw [Bool.not_eq_true] at hk0
        rw [hk0]
        exact ih

theorem countKey_insertAL_of_absent {α : Type} (l : List (Nat × α)) (k : Nat)
    (v : α) (h : countKey l k = 0) : countKey (insertAL l k v) k = 1 := by
  induction l with
  | nil => simp [insertAL, countKey]
  | cons hd tl ih =>
    obtain ⟨k', v'⟩ := hd
    unfold countKey at h
    simp only [List.filter] at h
    by_cases hk : k' = k
    · exfalso
      have : (k' == k) = true := by simp [hk]
      rw [this] at h
      simp at h
    · have hne : (k' == k) = false := by simp [hk]
      rw [hne] at h
      unfold insertAL
      rw [if_neg hk]
      unfold countKey
      simp only [List.filter, hne]
      exact ih h

/-- C10: the auxiliary-payload key mismatch.  `try_add_sig` files the
sender's payload under key `n`, but the dispatcher's `SA_SIGINFO` path looks
the payload up under key `n - 1`; consequently (when no stale entry sits at
`n - 1`) the record written onto the user stack is the default-constructed
one carrying only the signal number, and the stored payload is never the
one delivered, for every `n` in `1..=64`. -/
theorem siginfo_payload_key_mismatch (n : Nat) (payload : SigInfo)
    (s0 : SignalSet) (sm : SignalModule) (ktf : TrapFrame)
    (rd : Nat → SignalUserContext) (isMain : Bool) (s' : SignalSet)
    (hn1 : 1 ≤ n) (hn64 : n ≤ 64)
    (hsent : sm.sig_set.info = (s0.try_add_sig n (some payload)).info)
    (hclean : lookupAL s0.info (n - 1) = none)
    (hidle : sm.last_trap_frame = none)
    (hpop : sm.sig_set.get_one_sig = (some n, s'))
    (hdfl : (sm.sig_handler.get_action n).sa_handler ≠ SIG_DFL)
    (hign : (sm.sig_handler.get_action n).sa_handler ≠ SIG_IGN)
    (hsi : (sm.sig_handler.get_action n).sa_flags &&& SA_SIGINFO ≠ 0) :
    ((handle_signals false isMain sm ktf rd).infoWrite).map Prod.snd =
      some { SigInfo.default with si_signo := (n : Int) } ∧
    lookupAL sm.sig_set.info n = some (payload, SignalUserContext.default) := by
  have hinfo : s'.info = insertAL s0.info n (payload, SignalUserContext.default) := by
    have h1 := (get_one_sig_popped hpop).2.2.1
    rw [h1, hsent]
    rfl
  have hlook : lookupAL s'.info (n - 1) = none := by
    rw [hinfo, lookupAL_insertAL_ne _ _ _ _ (by omega)]
    exact hclean
  constructor
  · simp only [handle_signals, hpop, hidle, Option.isSome_none,
      Bool.false_eq_true, if_false, if_neg hdfl, if_neg hign, if_pos hsi,
      hlook]
    rfl
  · rw [hsent]
    show lookupAL (insertAL s0.info n (payload, SignalUserContext.default)) n =
      some (payload, SignalUserContext.default)
    exact lookupAL_insertAL_self _ _ _

/-- Witness for `siginfo_payload_key_mismatch`: signal 10 sent with payload
`payloadC10` to the idle module `smC10` whose action for 10 is a user
handler with `SA_SIGINFO`. -/
theorem siginfo_payload_key_mismatch_witness :
    ((handle_signals false true smC10 ktfC10
        (fun _ => SignalUserContext.default)).infoWrite).map Prod.snd =
      some { SigInfo.default with si_signo := (10 : Int) } ∧
    lookupAL smC10.sig_set.info 10 =
      some (payloadC10, SignalUserContext.default) :=
  siginfo_payload_key_mismatch 10 payloadC10 SignalSet.new smC10 ktfC10
    (fun _ => SignalUserContext.default) true
    ⟨0, 0, (SignalSet.new.try_add_sig 10 (some payloadC10)).info⟩
    (by decide) (by decide) rfl rfl rfl (by decide) (by decide) (by decide)
    (by decide)

/-- C2 counterexample: cloning with `flags = 0` (no `CLONE_VM`) hands the
child the parent's own address-space handle, so a child write of 7 at
address 0 is read back as 7 through the parent's handle — observable,
contrary to the claim.  Under the spec-modelled deep copy
(`clone_select_aspace_spec`) the parent still reads the old value 0. -/
theorem clone_without_vm_shares_aspace :
    (clone_select_aspace 0 worldC2 0).1 = 0 ∧
    (((clone_select_aspace 0 worldC2 0).2.write
        (clone_select_aspace 0 worldC2 0).1 0 7).read 0 0 = some 7) ∧
    (((clone_select_aspace_spec 0 worldC2 0).2.write
        (clone_select_aspace_spec 0 worldC2 0).1 0 7).read 0 0 = some 0) := by
  refine ⟨rfl, by decide, by decide⟩

/-- C2 (amended): for every clone without `CLONE_THREAD` the new process's
address space is the caller's own shared handle regardless of `CLONE_VM`:
the `CLONE_VM` branch clones the `Arc` as the claim says, but the deep-copy
branch is commented out behind a TODO and also clones the `Arc`, so child
writes are observable by the parent in both cases. -/
theorem clone_aspace_always_shared (flags : Nat) (w : AspaceWorld)
    (parent : Nat) : clone_select_aspace flags w parent = (parent, w) := by
  unfold clone_select_aspace
  split <;> rfl

/-- Witness for `clone_aspace_always_shared` at `flags = CLONE_VM` and at
`flags = 0` on the concrete world. -/
theorem clone_aspace_always_shared_witness :
    clone_select_aspace CLONE_VM worldC2 0 = (0, worldC2) ∧
    clone_select_aspace 0 worldC2 0 = (0, worldC2) :=
  ⟨clone_aspace_always_shared CLONE_VM worldC2 0,
    clone_aspace_always_shared 0 worldC2 0⟩

/-- C3 counterexample: `clone_thread` on process 5 with fresh task id 7
returns `Ok 5` — the owning process's pid — while the new thread's id is 7,
so the returned value is not the new thread-id as the claim states. -/
theorem clone_thread_returns_pid_not_tid :
    (clone_thread procC3 7 CLONE_THREAD none 0 tfC5).ret = 5 ∧
    (clone_thread procC3 7 CLONE_THREAD none 0 tfC5).newTid = 7 ∧
    (clone_thread procC3 7 CLONE_THREAD none 0 tfC5).ret ≠
      (clone_thread procC3 7 CLONE_THREAD none 0 tfC5).newTid := by
  refine ⟨rfl, rfl, by decide⟩

/-- C3 (amended): a successful `CLONE_THREAD` clone returns `Ok(proc.pid)` —
the owning process's pid, not the new thread's id — the pid is unchanged,
and the new thread (and its signal module) appears exactly once in the
process's tables. -/
theorem clone_thread_pid_and_registration (proc : ProcThreads)
    (nextTid flags : Nat) (stack : Option Nat) (ctid : Nat) (tf : TrapFrame)
    (hfresh : countKey proc.threads nextTid = 0)
    (hfresh2 : countKey proc.signal_module nextTid = 0)
    (hne : nextTid ≠ proc.pid) :
    (clone_thread proc nextTid flags stack ctid tf).ret = proc.pid ∧
    (clone_thread proc nextTid flags stack ctid tf).proc.pid = proc.pid ∧
    countKey (clone_thread proc nextTid flags stack ctid tf).proc.threads
      (clone_thread proc nextTid flags stack ctid tf).newTid = 1 ∧
    countKey (clone_thread proc nextTid flags stack ctid tf).proc.signal_module
      (clone_thread proc nextTid flags stack ctid tf).newTid = 1 ∧
    (clone_thread proc nextTid flags stack ctid tf).ret ≠
      (clone_thread proc nextTid flags stack ctid tf).newTid := by
  refine ⟨rfl, rfl, ?_, ?_, ?_⟩
  · exact countKey_insertAL_of_absent _ _ _ hfresh
  · exact countKey_insertAL_of_absent _ _ _ hfresh2
  · exact fun hc => hne hc.symm

/-- Witness for `clone_thread_pid_and_registration` at process 5 and fresh
task id 7. -/
theorem clone_thread_pid_and_registration_witness :
    (clone_thread procC3 7 CLONE_THREAD none 0 tfC5).ret = procC3.pid ∧
    (clone_thread procC3 7 CLONE_THREAD none 0 tfC5).proc.pid = procC3.pid ∧
    countKey (clone_thread procC3 7 CLONE_THREAD none 0 tfC5).proc.threads
      (clone_thread procC3 7 CLONE_THREAD none 0 tfC5).newTid = 1 ∧
    countKey
      (clone_thread procC3 7 CLONE_THREAD none 0 tfC5).proc.signal_module
      (clone_thread procC3 7 CLONE_THREAD none 0 tfC5).newTid = 1 ∧
    (clone_thread procC3 7 CLONE_THREAD none 0 tfC5).ret ≠
      (clone_thread procC3 7 CLONE_THREAD none 0 tfC5).newTid :=
  clone_thread_pid_and_registration procC3 7 CLONE_THREAD none 0 tfC5
    (by decide) (by decide) (by decide)

/-- C9 counterexample: `sys_kill(5, 2)` against an empty registry — the
lookup fails with `NotFound` — returns 0 (success), not a negative errno:
the error is discarded by `let _ = ...`. -/
theorem sys_kill_returns_zero_on_missing_pid :
    sys_kill [] 5 2 = some (0, []) ∧
    (send_signal_to_proc [] 5 2 none).isNotFound = true :=
  ⟨rfl, rfl⟩

/-- C9 (amended): for every `kill(pid, signum)` with `pid > 0`, `signum > 0`
and no registered process under `pid`, the `NotFound` failure of
`send_signal_to_proc` is silently discarded and `sys_kill` returns success
(0) with the registry unchanged; no negative errno reaches the caller. -/
theorem sys_kill_discards_notfound (reg : List (Nat × ProcSig))
    (pid signum : Int) (hpid : 0 < pid) (hsig : 0 < signum)
    (habs : lookupAL reg (usizeOfInt pid) = none) :
    sys_kill reg pid signum = some (0, reg) := by
  unfold sys_kill
  rw [if_pos ⟨hpid, hsig⟩]
  unfold send_signal_to_proc
  rw [habs]

/-- Witness for `sys_kill_discards_notfound` on the empty registry. -/
theorem sys_kill_discards_notfound_witness :
    sys_kill [] 5 2 = some (0, ([] : List (Nat × ProcSig))) :=
  sys_kill_discards_notfound [] 5 2 (by decide) (by decide) rfl

/-! ## List lemmas for the wait/reap protocol -/

theorem findEnum_none {α : Type} (p : α → Bool) :
    ∀ (l : List α) (i : Nat), (∀ a ∈ l, p a = false) → findEnum p l i = none := by
  intro l
  induction l with
  | nil => intro i _; rfl
  | cons a rest ih =>
    intro i h
    unfold findEnum
    rw [h a (List.mem_cons_self a rest)]
    simp only [Bool.false_eq_true, if_false]
    exact ih (i + 1) fun b hb => h b (List.mem_cons_of_mem a hb)

theorem findEnum_decomp {α : Type} (p : α → Bool) :
    ∀ (l : List α) (i j : Nat) (c : α), findEnum p l i = some (j, c) →
      ∃ l1 l2, l = l1 ++ c :: l2 ∧ j = i + l1.length ∧
        (∀ a ∈ l1, p a = false) ∧ p c = true := by
  intro l
  induction l with
  | nil => intro i j c h; simp [findEnum] at h
  | cons a rest ih =>
    intro i j c h
    unfold findEnum at h
    by_cases hp : p a = true
    · rw [hp] at h
      simp only [if_true, Option.some.injEq, Prod.mk.injEq] at h
      obtain ⟨hj, hc⟩ := h
      subst hj
      subst hc
      exact ⟨[], rest, rfl, by simp, by simp, hp⟩
    · rw [Bool.not_eq_true] at hp
      rw [hp] at h
      simp only [Bool.false_eq_true, if_false] at h
      obtain ⟨l1, l2, hsplit, hj, hall, hpc⟩ := ih (i + 1) j c h
      refine ⟨a :: l1, l2, by simp [hsplit], by simp [hj]; omega, ?_, hpc⟩
      intro b hb
      rcases List.mem_cons.mp hb with hb | hb
      · subst hb; exact hp
      · exact hall b hb

theorem eraseIdx_append_cons {α : Type} :
    ∀ (l1 : List α) (c : α) (l2 : List α),
      (l1 ++ c :: l2).eraseIdx l1.length = l1 ++ l2 := by
  intro l1
  induction l1 with
  | nil => intro c l2; rfl
  | cons a l1 ih =>
    intro c l2
    simp only [List.cons_append, List.length_cons, List.eraseIdx,
      List.append_eq]
    rw [ih c l2]

/-- C6 counterexample: a child that exited with code 256; `wait` writes
`256 << 8 = 65536` into the status word, while the claim's formula
`(code & 0xff) << 8` gives 0. -/
theorem wait_status_not_byte_masked :
    (wait_pid [⟨5, true, 256⟩] 5 true).statusWrite = some 65536 ∧
    ((256 &&& 0xff) <<< 8 : Nat) = 0 := by
  refine ⟨by decide, by decide⟩

/-- C6 (amended): reaping an exited child (pid > 0 path, status pointer
non-null) writes `code << 8` as a 32-bit wrapping shift with no `& 0xff`
masking of the low byte; in particular a child that exited with code 7
yields exactly `7 << 8 = 1792`. -/
theorem wait_status_encoding (children : List ChildProc) (pid : Int)
    (loc : Nat) (c : ChildProc) (hpid : 0 < pid)
    (hfind : findEnum (pidMatch pid) children 0 = some (loc, c))
    (hexit : c.is_exited = true) :
    (wait_pid children pid true).statusWrite =
      some (wrap32 (c.exit_code * 2 ^ 8)) ∧
    (c.exit_code = 7 →
      (wait_pid children pid true).statusWrite = some (7 * 2 ^ 8)) := by
  have hbody : (wait_pid children pid true).statusWrite =
      some (wrap32 (c.exit_code * 2 ^ 8)) := by
    unfold wait_pid
    rw [if_neg (by omega)]
    simp only [wait_pid_pos, hfind, ChildProc.state, hexit, ite_true]
  refine ⟨hbody, ?_⟩
  intro h7
  rw [hbody, h7]
  decide

/-- Witness for `wait_status_encoding`: a single exited child with exit
code 7 is reaped and the parent observes exactly `7 << 8`. -/
theorem wait_status_encoding_witness :
    (wait_pid [⟨5, true, 7⟩] 5 true).statusWrite =
      some (wrap32 ((7 : Int) * 2 ^ 8)) ∧
    ((7 : Int) = 7 →
      (wait_pid [⟨5, true, 7⟩] 5 true).statusWrite = some (7 * 2 ^ 8)) :=
  wait_status_encoding [⟨5, true, 7⟩] 5 0 ⟨5, true, 7⟩ (by decide) (by decide)
    rfl

/-- C7: reaping is at-most-once.  If the scan of `wait(pid)` (pid > 0)
finds the exited child `c` and `c` is the only child matching `pid`, then
the first call returns `Ok c.pid` and removes exactly that entry (length
drops by one, no match remains), and a second call on the resulting list
returns `NotExist` and leaves the list unchanged. -/
theorem wait_reap_at_most_once (children : List ChildProc) (pid : Int)
    (loc : Nat) (c : ChildProc) (ws : Bool) (hpid : 0 < pid)
    (hfind : findEnum (pidMatch pid) children 0 = some (loc, c))
    (hexit : c.is_exited = true)
    (huniq : (children.filter (pidMatch pid)).length = 1) :
    (wait_pid children pid ws).res = .ok c.pid ∧
    ((wait_pid children pid ws).children.filter (pidMatch pid)) = [] ∧
    (wait_pid (wait_pid children pid ws).children pid ws).res =
      .err .NotExist ∧
    (wait_pid (wait_pid children pid ws).children pid ws).children =
      (wait_pid children pid ws).children ∧
    (wait_pid children pid ws).children.length + 1 = children.length := by
  obtain ⟨l1, l2, hsplit, hloc, hall, hpc⟩ := findEnum_decomp _ children 0 loc c hfind
  have hout : wait_pid children pid ws =
      ⟨.ok c.pid,
        if ws then some (wrap32 (c.exit_code * 2 ^ 8)) else none,
        children.eraseIdx loc⟩ := by
    unfold wait_pid
    rw [if_neg (by omega)]
    simp only [wait_pid_pos, hfind, ChildProc.state, hexit, ite_true]
  have herase : children.eraseIdx loc = l1 ++ l2 := by
    rw [hsplit, hloc]
    simpa using eraseIdx_append_cons l1 c l2
  have hfilter2 : l2.filter (pidMatch pid) = [] := by
    have : children.filter (pidMatch pid) =
        c :: l2.filter (pidMatch pid) := by
      rw [hsplit, List.filter_append]
      rw [List.filter_eq_nil_iff.mpr (by intro a ha; simp [hall a ha])]
      simp [List.filter, hpc]
    rw [this] at huniq
    simp only [List.length_cons, Nat.add_left_inj] at huniq
    exact List.length_eq_zero.mp (by omega)
  have hnomatch : ∀ a ∈ l1 ++ l2, pidMatch pid a = false := by
    intro a ha
    rcases List.mem_append.mp ha with ha | ha
    · exact hall a ha
    · have := List.filter_eq_nil_iff.mp hfilter2 a ha
      cases hb : pidMatch pid a
      · rfl
      · exact absurd hb this
  have hsecond : wait_pid (l1 ++ l2) pid ws = ⟨.err .NotExist, none, l1 ++ l2⟩ := by
    unfold wait_pid
    rw [if_neg (by omega)]
    unfold wait_pid_pos
    rw [findEnum_none _ _ 0 hnomatch]
  refine ⟨?_, ?_, ?_, ?_, ?_⟩
  · rw [hout]
  · rw [hout]
    simp only
    rw [herase]
    exact List.filter_eq_nil_iff.mpr
      (fun a ha => by simp [hnomatch a ha])
  · rw [hout]
    simp only
    rw [herase, hsecond]
  · rw [hout]
    simp only
    rw [herase, hsecond]
  · rw [hout]
    simp only
    rw [herase, hsplit]
    simp only [List.length_append, List.length_cons]
    omega

/-- Witness for `wait_reap_at_most_once`: two children, the second (pid 5)
exited; reaping pid 5 succeeds once and the second call reports
`NotExist`. -/
theorem wait_reap_at_most_once_witness :
    (wait_pid [⟨3, false, 0⟩, ⟨5, true, 9⟩] 5 false).res =
      .ok (ChildProc.pid ⟨5, true, 9⟩) ∧
    ((wait_pid [⟨3, false, 0⟩, ⟨5, true, 9⟩] 5 false).children.filter
      (pidMatch 5)) = [] ∧
    (wait_pid (wait_pid [⟨3, false, 0⟩, ⟨5, true, 9⟩] 5 false).children 5
      false).res = .err .NotExist ∧
    (wait_pid (wait_pid [⟨3, false, 0⟩, ⟨5, true, 9⟩] 5 false).children 5
      false).children =
      (wait_pid [⟨3, false, 0⟩, ⟨5, true, 9⟩] 5 false).children ∧
    (wait_pid [⟨3, false, 0⟩, ⟨5, true, 9⟩] 5 false).children.length + 1 =
      ([⟨3, false, 0⟩, ⟨5, true, 9⟩] : List ChildProc).length :=
  wait_reap_at_most_once [⟨3, false, 0⟩, ⟨5, true, 9⟩] 5 1 ⟨5, true, 9⟩ false
    (by decide) (by decide) rfl (by decide)

end Starry
